import Mathlib

/-!
# Verification of the SaaS Landing backend (src/main.py, src/schemas.py)

Shallow embedding of the backend's request handlers and data model.

* `Value`, `Doc`, `Store` embed the JSON-like documents held by the
  document store, grouped into named collections.
* `create_document` / `get_documents` embed the persistence adapter.
  The adapter's implementation (`database.py`) is repository code that is
  not under `src/`; these two definitions are modelled from the spec
  (section 4.2): insert appends the serialized record to the collection
  and returns a freshly generated non-empty opaque identifier;
  find returns the documents matching the field-equality filter, up to
  the optional limit, in store order.
* `hash_password` embeds `hashlib.sha256(password.encode("utf-8")).hexdigest()`
  (`main.py` line 25-26): a full executable SHA-256 over the UTF-8 bytes
  of the password, rendered as a lowercase hex digest.
* `register`, `login`, `list_blogs`, `contact`, `contact_endpoint`,
  `test_database` embed the route handlers of `main.py`.
-/

set_option autoImplicit false

namespace SaaS

/-- A JSON-like field value as used by the documents of this backend:
strings, booleans, lists of strings (tags), timestamps (opaque), null. -/
inductive Value where
  | str (s : String)
  | bool (b : Bool)
  | listStr (l : List String)
  | time (t : Nat)
  | null
deriving DecidableEq, Repr

/-- A document: an association list from field names to values
(first occurrence of a key wins, as in a JSON object / Python dict). -/
abbrev Doc := List (String × Value)

/-- `d.get k` embeds Python's `d.get(k)`: the value of the first field
named `k`, or `none` when the field is absent. -/
def Doc.get : Doc → String → Option Value
  | [], _ => none
  | (k', v) :: rest, k => if k' = k then some v else Doc.get rest k

/-- A document matches a filter when every field of the filter is present
in the document with exactly that value (Mongo-style equality filter). -/
def docMatches (flt : Doc) (d : Doc) : Bool :=
  flt.all fun kv => decide (d.get kv.1 = some kv.2)

/-- The document store: named collections of documents, plus a counter
from which fresh opaque identifiers are generated. -/
structure Store where
  colls : List (String × List Doc)
  nextId : Nat
deriving DecidableEq, Repr

/-- The empty store. -/
def Store.empty : Store := ⟨[], 0⟩

/-- The list of documents of collection `c` (empty when the collection
does not exist yet). -/
def getColl (s : Store) (c : String) : List Doc :=
  go s.colls c
where
  go : List (String × List Doc) → String → List Doc
    | [], _ => []
    | (c', ds) :: rest, c => if c' = c then ds else go rest c

/-- Replace (or create) collection `c` with contents `ds`. -/
def setColl : List (String × List Doc) → String → List Doc → List (String × List Doc)
  | [], c, ds => [(c, ds)]
  | (c', ds') :: rest, c, ds =>
      if c' = c then (c, ds) :: rest else (c', ds') :: setColl rest c ds

/-- Modelled from the spec: the persistence adapter's
`insert(collection, document) -> id` (`create_document` of the missing
`database.py`). It serializes the validated record, appends it to the
collection, and returns the store-generated opaque identifier. -/
def create_document (c : String) (d : Doc) (s : Store) : String × Store :=
  ("doc_" ++ toString s.nextId,
   { colls := setColl s.colls c (getColl s c ++ [d]), nextId := s.nextId + 1 })

/-- Modelled from the spec: the persistence adapter's
`find(collection, filter, limit?) -> sequence` (`get_documents` of the
missing `database.py`). Returns the matching documents in store order,
up to `limit` when given; an empty sequence, never an error, when
nothing matches. -/
def get_documents (c : String) (flt : Doc) (limit : Option Nat) (s : Store) : List Doc :=
  match limit with
  | none => (getColl s c).filter (docMatches flt)
  | some n => ((getColl s c).filter (docMatches flt)).take n

/-! ## SHA-256 (`hash_password`, main.py lines 25-26)

Words are `Nat`s kept below `2^32` by explicit `% 4294967296`. -/

/-- Right-rotation of a 32-bit word. -/
def rotr (n x : Nat) : Nat :=
  ((x >>> n) ||| (x <<< (32 - n))) % 4294967296

/-- The SHA-256 round constants (FIPS 180-4, in decimal). -/
def shaK : List Nat :=
  [1116352408, 1899447441, 3049323471, 3921009573, 961987163, 1508970993,
   2453635748, 2870763221, 3624381080, 310598401, 607225278, 1426881987,
   1925078388, 2162078206, 2614888103, 3248222580, 3835390401, 4022224774,
   264347078, 604807628, 770255983, 1249150122, 1555081692, 1996064986,
   2554220882, 2821834349, 2952996808, 3210313671, 3336571891, 3584528711,
   113926993, 338241895, 666307205, 773529912, 1294757372, 1396182291,
   1695183700, 1986661051, 2177026350, 2456956037, 2730485921, 2820302411,
   3259730800, 3345764771, 3516065817, 3600352804, 4094571909, 275423344,
   430227734, 506948616, 659060556, 883997877, 958139571, 1322822218,
   1537002063, 1747873779, 1955562222, 2024104815, 2227730452, 2361852424,
   2428436474, 2756734187, 3204031479, 3329325298]

/-- The SHA-256 initial hash value (FIPS 180-4, in decimal). -/
def shaH0 : List Nat :=
  [1779033703, 3144134277, 1013904242, 2773480762,
   1359893119, 2600822924, 528734635, 1541459225]

/-- UTF-8 encoding of one character, as byte values. -/
def utf8Bytes (c : Char) : List Nat :=
  let n := c.toNat
  if n < 0x80 then [n]
  else if n < 0x800 then
    [0xC0 ||| (n >>> 6), 0x80 ||| (n &&& 0x3F)]
  else if n < 0x10000 then
    [0xE0 ||| (n >>> 12), 0x80 ||| ((n >>> 6) &&& 0x3F), 0x80 ||| (n &&& 0x3F)]
  else
    [0xF0 ||| (n >>> 18), 0x80 ||| ((n >>> 12) &&& 0x3F),
     0x80 ||| ((n >>> 6) &&& 0x3F), 0x80 ||| (n &&& 0x3F)]

/-- The UTF-8 bytes of a string (Python's `s.encode("utf-8")`). -/
def strBytes (s : String) : List Nat :=
  s.data.foldr (fun c acc => utf8Bytes c ++ acc) []

/-- The 8-byte big-endian encoding of the bit length. -/
def lenBytes (n : Nat) : List Nat :=
  [(n >>> 56) % 256, (n >>> 48) % 256, (n >>> 40) % 256, (n >>> 32) % 256,
   (n >>> 24) % 256, (n >>> 16) % 256, (n >>> 8) % 256, n % 256]

/-- SHA-256 padding: append `0x80`, zeros to 56 mod 64, then the 64-bit
big-endian message bit length. -/
def padMsg (bytes : List Nat) : List Nat :=
  let len := bytes.length
  let zeros := (120 - (len + 1) % 64) % 64
  bytes ++ [0x80] ++ List.replicate zeros 0 ++ lenBytes (len * 8)

/-- Group bytes into big-endian 32-bit words. -/
def toWords : List Nat → List Nat
  | b0 :: b1 :: b2 :: b3 :: rest =>
      (((b0 * 256 + b1) * 256 + b2) * 256 + b3) :: toWords rest
  | _ => []

/-- Group a word list into 16-word blocks. -/
def chunk16 : List Nat → List (List Nat)
  | w0 :: w1 :: w2 :: w3 :: w4 :: w5 :: w6 :: w7 ::
    w8 :: w9 :: w10 :: w11 :: w12 :: w13 :: w14 :: w15 :: rest =>
      [w0, w1, w2, w3, w4, w5, w6, w7, w8, w9, w10, w11, w12, w13, w14, w15] :: chunk16 rest
  | _ => []

/-- Extend the 16 block words with `count` further schedule words. -/
def schedule (w : List Nat) : Nat → List Nat
  | 0 => w
  | count + 1 =>
      let n := w.length
      let w15 := w.getD (n - 15) 0
      let w2 := w.getD (n - 2) 0
      let w16 := w.getD (n - 16) 0
      let w7 := w.getD (n - 7) 0
      let s0 := (rotr 7 w15) ^^^ (rotr 18 w15) ^^^ (w15 >>> 3)
      let s1 := (rotr 17 w2) ^^^ (rotr 19 w2) ^^^ (w2 >>> 10)
      schedule (w ++ [(w16 + s0 + w7 + s1) % 4294967296]) count

/-- One SHA-256 compression round; the state is the 8-word working list. -/
def shaRound (st : List Nat) (kw : Nat × Nat) : List Nat :=
  let a := st.getD 0 0
  let b := st.getD 1 0
  let c := st.getD 2 0
  let d := st.getD 3 0
  let e := st.getD 4 0
  let f := st.getD 5 0
  let g := st.getD 6 0
  let h := st.getD 7 0
  let s1 := (rotr 6 e) ^^^ (rotr 11 e) ^^^ (rotr 25 e)
  let ch := (e &&& f) ^^^ ((e ^^^ 4294967295) &&& g)
  let temp1 := (h + s1 + ch + kw.1 + kw.2) % 4294967296
  let s0 := (rotr 2 a) ^^^ (rotr 13 a) ^^^ (rotr 22 a)
  let maj := (a &&& b) ^^^ (a &&& c) ^^^ (b &&& c)
  let temp2 := (s0 + maj) % 4294967296
  [(temp1 + temp2) % 4294967296, a, b, c, (d + temp1) % 4294967296, e, f, g]

/-- Process one 16-word block: expand the schedule, run 64 rounds,
add the result into the running hash. -/
def shaBlock (h : List Nat) (block : List Nat) : List Nat :=
  let ws := schedule block 48
  let st := (shaK.zip ws).foldl shaRound h
  (h.zip st).map (fun p => (p.1 + p.2) % 4294967296)

/-- One lowercase hex digit. -/
def hexDigit (n : Nat) : Char :=
  if n < 10 then Char.ofNat (48 + n) else Char.ofNat (87 + n)

/-- The 8-hex-digit rendering of a 32-bit word. -/
def wordHex (w : Nat) : String :=
  String.mk
    [hexDigit ((w >>> 28) % 16), hexDigit ((w >>> 24) % 16),
     hexDigit ((w >>> 20) % 16), hexDigit ((w >>> 16) % 16),
     hexDigit ((w >>> 12) % 16), hexDigit ((w >>> 8) % 16),
     hexDigit ((w >>> 4) % 16), hexDigit (w % 16)]

/-- SHA-256 of a byte sequence, as a lowercase hex digest. -/
def sha256hex (bytes : List Nat) : String :=
  let final := (chunk16 (toWords (padMsg bytes))).foldl shaBlock shaH0
  String.join (final.map wordHex)

/-- `hash_password` (main.py lines 25-26):
`hashlib.sha256(password.encode("utf-8")).hexdigest()`. -/
def hash_password (password : String) : String :=
  sha256hex (strBytes password)

/-! ## Request / response shapes (main.py lines 31-54) -/

/-- `RegisterRequest` (main.py lines 31-34), after validation. -/
structure RegisterRequest where
  name : String
  email : String
  password : String
deriving DecidableEq, Repr

/-- `LoginRequest` (main.py lines 36-38), after validation. -/
structure LoginRequest where
  email : String
  password : String
deriving DecidableEq, Repr

/-- `BlogOut` (main.py lines 40-48): the public blog response shape. -/
structure BlogOut where
  title : String
  slug : String
  summary : Option String
  content : String
  author : String
  tags : List String
  published : Bool
  published_at : Option Nat
deriving DecidableEq, Repr

/-- `ContactRequest` (main.py lines 50-54), after validation. -/
structure ContactRequest where
  name : String
  email : String
  subject : Option String
  message : String
deriving DecidableEq, Repr

/-- An `HTTPException(status_code, detail)`. -/
structure HErr where
  status : Nat
  detail : String
deriving DecidableEq, Repr

/-- Response of `register`: `{"ok": True, "user_id": user_id}`. -/
structure RegisterResponse where
  ok : Bool
  user_id : String
deriving DecidableEq, Repr

/-- Response of `login`: `{"ok": True, "name": ..., "email": ...}`.
The `name`/`email` fields come from `user.get(...)`, which yields `None`
when the stored document lacks the field, hence `Option Value`. -/
structure LoginResponse where
  ok : Bool
  name : Option Value
  email : Option Value
deriving DecidableEq, Repr

/-- Response of `contact`: `{"ok": True, "message": ..., "id": doc_id}`. -/
structure ContactResponse where
  ok : Bool
  message : String
  id : String
deriving DecidableEq, Repr

/-! ## Auth handlers (main.py lines 94-120) -/

/-- The User document built by `register` through the `User` schema of
`schemas.py` (serialized for insertion). -/
def userDoc (p : RegisterRequest) : Doc :=
  [("name", .str p.name), ("email", .str p.email),
   ("password_hash", .str (hash_password p.password)),
   ("avatar_url", .null), ("is_active", .bool true)]

/-- `register` (main.py lines 94-109): look up the email; if a user
exists, raise 400 "Email already registered"; else insert the new User
document and return `{ok: true, user_id}`. -/
def register (p : RegisterRequest) (s : Store) : Except HErr RegisterResponse × Store :=
  let existing := get_documents "user" [("email", .str p.email)] (some 1) s
  if existing.isEmpty then
    let (uid, s') := create_document "user" (userDoc p) s
    (.ok ⟨true, uid⟩, s')
  else
    (.error ⟨400, "Email already registered"⟩, s)

/-- `login` (main.py lines 111-120): look up the email; unknown email or
password-hash mismatch raise 401 "Invalid credentials"; else return the
stored name and email. Reads only, so no store is returned. -/
def login (p : LoginRequest) (s : Store) : Except HErr LoginResponse :=
  let users := get_documents "user" [("email", .str p.email)] (some 1) s
  match users with
  | [] => .error ⟨401, "Invalid credentials"⟩
  | user :: _ =>
    if user.get "password_hash" ≠ some (.str (hash_password p.password)) then
      .error ⟨401, "Invalid credentials"⟩
    else
      .ok ⟨true, user.get "name", user.get "email"⟩

/-! ## Blog handler (main.py lines 125-169) -/

/-- The filter of `get_documents("blogpost", {"published": True})`. -/
def blogFilter : Doc := [("published", .bool true)]

/-- First seeded example post (main.py lines 131-140), serialized through
the `BlogPost` schema; `now` stands for `datetime.utcnow()`. -/
def examplePost1 (now : Nat) : Doc :=
  [("title", .str "Launching our pastel fintech platform"),
   ("slug", .str "launching-pastel-fintech"),
   ("summary", .str "A soft, modern take on digital banking."),
   ("content", .str "We are excited to introduce a gentle, human fintech experience..."),
   ("author", .str "Team"),
   ("tags", .listStr ["announcement", "fintech"]),
   ("published", .bool true),
   ("published_at", .time now)]

/-- Second seeded example post (main.py lines 141-150). -/
def examplePost2 (now : Nat) : Doc :=
  [("title", .str "How we price simply and fairly"),
   ("slug", .str "simple-fair-pricing"),
   ("summary", .str "Transparent plans that scale with you."),
   ("content", .str "No hidden fees. Just clear tiers designed for growth..."),
   ("author", .str "Team"),
   ("tags", .listStr ["pricing", "product"]),
   ("published", .bool true),
   ("published_at", .time now)]

/-- A required string field of a stored document, as `BlogOut` validation
sees it: present and a string, or validation fails. -/
def asStr : Option Value → Option String
  | some (.str s) => some s
  | _ => none

/-- An optional string field: absent or null becomes `none`. -/
def asOptStr : Option Value → Option (Option String)
  | none => some none
  | some .null => some none
  | some (.str s) => some (some s)
  | _ => none

/-- `p.get("tags", [])` then `List[str]` validation. -/
def asTags : Option Value → Option (List String)
  | none => some []
  | some (.listStr l) => some l
  | _ => none

/-- `p.get("published", True)` then `bool` validation. -/
def asPublished : Option Value → Option Bool
  | none => some true
  | some (.bool b) => some b
  | _ => none

/-- An optional timestamp field. -/
def asOptTime : Option Value → Option (Option Nat)
  | none => some none
  | some .null => some none
  | some (.time t) => some (some t)
  | _ => none

/-- The mapping of one stored document to `BlogOut` (main.py lines
159-168); `none` embeds a pydantic validation error on a malformed
document. -/
def toBlogOut (p : Doc) : Option BlogOut := do
  let title ← asStr (p.get "title")
  let slug ← asStr (p.get "slug")
  let summary ← asOptStr (p.get "summary")
  let content ← asStr (p.get "content")
  let author ← asStr (p.get "author")
  let tags ← asTags (p.get "tags")
  let published ← asPublished (p.get "published")
  let published_at ← asOptTime (p.get "published_at")
  pure ⟨title, slug, summary, content, author, tags, published, published_at⟩

/-- The result-building loop of `list_blogs` (main.py lines 157-168):
map every stored document to `BlogOut`, failing on the first document
that fails validation. -/
def mapBlogOuts : List Doc → Option (List BlogOut)
  | [] => some []
  | p :: rest => do
    let b ← toBlogOut p
    let bs ← mapBlogOuts rest
    pure (b :: bs)

/-- `list_blogs` (main.py lines 125-169): query the published posts; if
the result is empty, seed the two example posts and re-query; map each
document to `BlogOut`. `now` stands for `datetime.utcnow()`; the first
component is `none` when a document fails `BlogOut` validation. -/
def list_blogs (now : Nat) (s : Store) : Option (List BlogOut) × Store :=
  let posts := get_documents "blogpost" blogFilter none s
  if posts.isEmpty then
    let s1 := (create_document "blogpost" (examplePost1 now) s).2
    let s2 := (create_document "blogpost" (examplePost2 now) s1).2
    let posts2 := get_documents "blogpost" blogFilter none s2
    (mapBlogOuts posts2, s2)
  else
    (mapBlogOuts posts, s)

/-! ## Contact handler (main.py lines 174-183) and its validation -/

/-- The ContactMessage document built by `contact` through the
`ContactMessage` schema of `schemas.py`. -/
def contactDoc (p : ContactRequest) : Doc :=
  [("name", .str p.name), ("email", .str p.email),
   ("subject", match p.subject with | none => .null | some t => .str t),
   ("message", .str p.message)]

/-- `contact` (main.py lines 174-183): insert the ContactMessage document
unconditionally and acknowledge with the fixed message and the new id. -/
def contact (p : ContactRequest) (s : Store) : ContactResponse × Store :=
  let (doc_id, s') := create_document "contactmessage" (contactDoc p) s
  (⟨true, "Thanks for reaching out! We\x27ll get back to you soon.", doc_id⟩, s')

/-- The `BlogPost` schema of `schemas.py` (lines 29-40) as a document
constructor: `none` arguments embed omitted optional-or-defaulted
fields; the schema defaults (`tags` defaults to `[]`, `published` to
`True`) are applied at construction, as pydantic does before the
record is serialized for insertion. -/
def mkBlogPostDoc (title slug : String) (summary : Option String)
    (content author : String) (tags : Option (List String))
    (published : Option Bool) (published_at : Option Nat) : Doc :=
  [("title", .str title), ("slug", .str slug),
   ("summary", match summary with | none => .null | some t => .str t),
   ("content", .str content), ("author", .str author),
   ("tags", .listStr (tags.getD [])),
   ("published", .bool (published.getD true)),
   ("published_at", match published_at with | none => .null | some t => .time t)]

/-- Split a character list at every occurrence of `c`. -/
def splitOnChar (c : Char) : List Char → List (List Char)
  | [] => [[]]
  | x :: xs =>
    let r := splitOnChar c xs
    if x = c then [] :: r
    else
      match r with
      | [] => [[x]]
      | y :: ys => (x :: y) :: ys

/-- The email-syntax predicate of the validation layer (`EmailStr`).
The validation library is an external collaborator; this is the
abstraction the spec requires ("Email fields must conform to standard
email syntax"): exactly one `@`, non-empty local part, non-empty domain
containing a dot, no spaces. -/
def isValidEmail (e : String) : Bool :=
  match splitOnChar '@' e.data with
  | [lp, dom] => !lp.isEmpty && !dom.isEmpty && dom.contains '.' && !(e.data.contains ' ')
  | _ => false

/-- The validation layer for `ContactRequest` bodies (main.py lines
50-54): `name` and `message` required strings, `email` a required valid
email, `subject` an optional string; anything else rejects. -/
def parseContactRequest (body : Doc) : Option ContactRequest := do
  let name ← asStr (body.get "name")
  let email ← asStr (body.get "email")
  if isValidEmail email then
    let subject ← asOptStr (body.get "subject")
    let message ← asStr (body.get "message")
    pure ⟨name, email, subject, message⟩
  else
    none

/-- The full `POST /api/contact` pipeline: validation first (a 422 with
structured detail on failure, before any persistence call), then the
`contact` handler. -/
def contact_endpoint (body : Doc) (s : Store) : Except HErr ContactResponse × Store :=
  match parseContactRequest body with
  | none => (.error ⟨422, "validation error"⟩, s)
  | some p =>
    let (r, s') := contact p s
    (.ok r, s')

/-! ## Diagnostic handler (main.py lines 63-89) -/

/-- The observable condition of the database handle `db` imported from
`database.py`: `none` embeds `db is None`; otherwise the handle carries
its `name` attribute (when present) and the outcome of
`list_collection_names()` (which may raise). -/
structure DbHandle where
  name : Option String
  collectionNames : Except String (List String)
deriving Repr

/-- The diagnostic object returned by `GET /test`. -/
structure TestResponse where
  backend : String
  database : String
  database_url : Option String
  database_name : Option String
  connection_status : String
  collections : List String
deriving DecidableEq, Repr

/-- Python's `str(e)[:50]`. -/
def strTake (s : String) (n : Nat) : String :=
  String.mk (s.data.take n)

/-- `test_database` (main.py lines 63-89): purely observational; every
probe failure is caught and reported as status text. `envUrl` embeds
`os.getenv("DATABASE_URL")` (a set-but-empty variable is falsy in
Python, hence the emptiness test). -/
def test_database (envUrl : Option String) (db : Option DbHandle) : TestResponse :=
  match db with
  | none =>
      { backend := "✅ Running", database := "⚠️ Available but not initialized",
        database_url := none, database_name := none,
        connection_status := "Not Connected", collections := [] }
  | some h =>
      let urlStr := match envUrl with
        | some u => if u = "" then "❌ Not Set" else "✅ Set"
        | none => "❌ Not Set"
      let nameStr := match h.name with
        | some n => n
        | none => "✅ Connected"
      match h.collectionNames with
      | .ok cols =>
          { backend := "✅ Running", database := "✅ Connected & Working",
            database_url := some urlStr, database_name := some nameStr,
            connection_status := "Connected", collections := cols.take 10 }
      | .error e =>
          { backend := "✅ Running",
            database := "⚠️ Connected but Error: " ++ strTake e 50,
            database_url := some urlStr, database_name := some nameStr,
            connection_status := "Connected", collections := [] }

/-! ## Store infrastructure lemmas -/

theorem getCollGo_setColl_self : ∀ (l : List (String × List Doc)) (c : String) (ds : List Doc),
    getColl.go (setColl l c ds) c = ds
  | [], c, ds => by simp [setColl, getColl.go]
  | (a, b) :: tl, c, ds => by
    by_cases h : a = c
    · simp [setColl, h, getColl.go]
    · simpa [setColl, h, getColl.go] using getCollGo_setColl_self tl c ds

theorem getCollGo_setColl_ne : ∀ (l : List (String × List Doc)) (c c' : String) (ds : List Doc),
    c' ≠ c → getColl.go (setColl l c ds) c' = getColl.go l c'
  | [], c, c', ds, h => by simp [setColl, getColl.go, Ne.symm h]
  | (a, b) :: tl, c, c', ds, h => by
    by_cases hc : a = c
    · subst hc
      simp [setColl, getColl.go, Ne.symm h]
    · by_cases hc' : a = c'
      · simp [setColl, hc, getColl.go, hc', h]
      · simp [setColl, hc, getColl.go, hc', h, getCollGo_setColl_ne tl c c' ds h]

/-- Inserting into collection `c` appends the document to `c`. -/
theorem getColl_create_self (c : String) (d : Doc) (s : Store) :
    getColl (create_document c d s).2 c = getColl s c ++ [d] := by
  simp [create_document, getColl, getCollGo_setColl_self]

/-- Inserting into collection `c` leaves every other collection unchanged. -/
theorem getColl_create_ne (c c' : String) (d : Doc) (s : Store) (h : c' ≠ c) :
    getColl (create_document c d s).2 c' = getColl s c' := by
  simp [create_document, getColl, getCollGo_setColl_ne _ _ _ _ h]

/-- The generated identifiers are never empty. -/
theorem create_document_id_ne_empty (c : String) (d : Doc) (s : Store) :
    (create_document c d s).1 ≠ "" := by
  intro h
  have := congrArg String.length h
  simp [create_document, String.length_append] at this
  exact absurd this.1 (by decide)

/-- A singleton equality filter matches exactly the documents carrying
that field with that value. -/
theorem docMatches_singleton (k : String) (v : Value) (d : Doc) :
    docMatches [(k, v)] d = true ↔ d.get k = some v := by
  simp [docMatches]

/-- A limit-1 find is empty exactly when no document of the collection
matches the filter. -/
theorem get_documents_limit1_empty_iff (c : String) (flt : Doc) (s : Store) :
    get_documents c flt (some 1) s = [] ↔
      ∀ d ∈ getColl s c, ¬ docMatches flt d := by
  simp [get_documents, List.take_eq_nil_iff, List.filter_eq_nil_iff]

/-! ## Auth helper lemmas -/

theorem userDoc_get_email (p : RegisterRequest) :
    (userDoc p).get "email" = some (.str p.email) := rfl

theorem userDoc_get_name (p : RegisterRequest) :
    (userDoc p).get "name" = some (.str p.name) := rfl

theorem userDoc_get_hash (p : RegisterRequest) :
    (userDoc p).get "password_hash" = some (.str (hash_password p.password)) := rfl

/-- When no stored user carries the email, the handler's limit-1 lookup
is empty. -/
theorem find_user_empty_of_no_email (s : Store) (e : String)
    (h : ∀ d ∈ getColl s "user", d.get "email" ≠ some (.str e)) :
    get_documents "user" [("email", .str e)] (some 1) s = [] := by
  rw [get_documents_limit1_empty_iff]
  intro d hd hm
  exact h d hd ((docMatches_singleton _ _ _).mp hm)

/-- A fresh email registers: the new User document is inserted and the
generated identifier is returned. -/
theorem register_ok_of_no_email (s : Store) (p : RegisterRequest)
    (h : ∀ d ∈ getColl s "user", d.get "email" ≠ some (.str p.email)) :
    register p s = (.ok ⟨true, (create_document "user" (userDoc p) s).1⟩,
                    (create_document "user" (userDoc p) s).2) := by
  simp [register, find_user_empty_of_no_email s p.email h]

/-- A stored user with the email makes `register` fail with the fixed
conflict error, leaving the store unchanged. -/
theorem register_conflict_of_email (s : Store) (p : RegisterRequest)
    (d : Doc) (hd : d ∈ getColl s "user") (he : d.get "email" = some (.str p.email)) :
    register p s = (.error ⟨400, "Email already registered"⟩, s) := by
  have hne : get_documents "user" [("email", .str p.email)] (some 1) s ≠ [] := by
    intro hempty
    exact (get_documents_limit1_empty_iff _ _ _).mp hempty d hd
      ((docMatches_singleton _ _ _).mpr he)
  cases hfind : get_documents "user" [("email", .str p.email)] (some 1) s with
  | nil => exact absurd hfind hne
  | cons u rest => simp [register, hfind]

/-- After inserting the new user on a store free of that email, the
limit-1 lookup returns exactly the inserted document. -/
theorem find_user_after_insert (s : Store) (p : RegisterRequest)
    (h : ∀ d ∈ getColl s "user", d.get "email" ≠ some (.str p.email)) :
    get_documents "user" [("email", .str p.email)] (some 1)
      (create_document "user" (userDoc p) s).2 = [userDoc p] := by
  have h1 : (getColl s "user").filter (docMatches [("email", .str p.email)]) = [] := by
    rw [List.filter_eq_nil_iff]
    intro d hd hm
    exact h d hd ((docMatches_singleton _ _ _).mp hm)
  have h2 : docMatches [("email", .str p.email)] (userDoc p) = true :=
    (docMatches_singleton _ _ _).mpr (userDoc_get_email p)
  simp [get_documents, getColl_create_self, List.filter_append, h1, List.filter, h2]

/-- **C1**: registering a fresh email succeeds with `ok = true` and a
non-empty `user_id`; registering an email already stored fails with the
400 error "Email already registered"; in particular a second
registration with the same email right after a successful one fails
with that error. -/
theorem register_unique_email (s : Store) (p : RegisterRequest) :
    ((∀ d ∈ getColl s "user", d.get "email" ≠ some (.str p.email)) →
      ∃ uid, (register p s).1 = .ok ⟨true, uid⟩ ∧ uid ≠ "") ∧
    ((∃ d ∈ getColl s "user", d.get "email" = some (.str p.email)) →
      (register p s).1 = .error ⟨400, "Email already registered"⟩) ∧
    ((∀ d ∈ getColl s "user", d.get "email" ≠ some (.str p.email)) →
      (register p (register p s).2).1 = .error ⟨400, "Email already registered"⟩) := by
  refine ⟨fun h => ?_, fun ⟨d, hd, he⟩ => ?_, fun h => ?_⟩
  · rw [register_ok_of_no_email s p h]
    exact ⟨_, rfl, create_document_id_ne_empty _ _ _⟩
  · rw [register_conflict_of_email s p d hd he]
  · rw [register_ok_of_no_email s p h]
    have hd : userDoc p ∈ getColl (create_document "user" (userDoc p) s).2 "user" := by
      rw [getColl_create_self]
      exact List.mem_append_right _ (List.mem_singleton.mpr rfl)
    rw [register_conflict_of_email _ p (userDoc p) hd (userDoc_get_email p)]

/-- **C1 witness**: in the empty store, registering Ada and immediately
re-registering the same email fails with the fixed conflict error. -/
theorem register_unique_email_witness :
    (register ⟨"Ada", "ada@x.com", "secret"⟩
      (register ⟨"Ada", "ada@x.com", "secret"⟩ Store.empty).2).1 =
      .error ⟨400, "Email already registered"⟩ := by
  have hempty : ∀ d ∈ getColl Store.empty "user",
      Doc.get d "email" ≠ some (.str "ada@x.com") := by
    intro d hd
    simp [getColl, Store.empty, getColl.go] at hd
  exact (register_unique_email Store.empty ⟨"Ada", "ada@x.com", "secret"⟩).2.2 hempty

/-- **C2**: after a successful registration, logging in with the same
email and password succeeds and returns the registered name and email
(the password hash is recomputed deterministically and compared against
the stored hash). -/
theorem register_login_roundtrip (s : Store) (p : RegisterRequest)
    (h : ∀ d ∈ getColl s "user", d.get "email" ≠ some (.str p.email)) :
    (∃ r, (register p s).1 = .ok r) ∧
    login ⟨p.email, p.password⟩ (register p s).2 =
      .ok ⟨true, some (.str p.name), some (.str p.email)⟩ := by
  rw [register_ok_of_no_email s p h]
  refine ⟨⟨_, rfl⟩, ?_⟩
  have husers := find_user_after_insert s p h
  simp [login, husers, userDoc_get_hash, userDoc_get_name, userDoc_get_email]

/-- **C2 witness**: the concrete round trip in the empty store. -/
theorem register_login_roundtrip_witness :
    login ⟨"ada@x.com", "secret"⟩
      (register ⟨"Ada", "ada@x.com", "secret"⟩ Store.empty).2 =
      .ok ⟨true, some (.str "Ada"), some (.str "ada@x.com")⟩ := by
  have hempty : ∀ d ∈ getColl Store.empty "user",
      Doc.get d "email" ≠ some (.str "ada@x.com") := by
    intro d hd
    simp [getColl, Store.empty, getColl.go] at hd
  exact (register_login_roundtrip Store.empty ⟨"Ada", "ada@x.com", "secret"⟩ hempty).2

/-- **C3**: the login error for an unknown email and the login error for
a known email with a wrong password are the very same 401 response
"Invalid credentials": the two failing runs are indistinguishable. -/
theorem login_errors_indistinguishable (s₁ : Store) (p₁ : LoginRequest)
    (s₂ : Store) (p₂ : LoginRequest) (u : Doc) (rest : List Doc)
    (h₁ : get_documents "user" [("email", .str p₁.email)] (some 1) s₁ = [])
    (h₂ : get_documents "user" [("email", .str p₂.email)] (some 1) s₂ = u :: rest)
    (hpw : u.get "password_hash" ≠ some (.str (hash_password p₂.password))) :
    login p₁ s₁ = .error ⟨401, "Invalid credentials"⟩ ∧
    login p₂ s₂ = .error ⟨401, "Invalid credentials"⟩ ∧
    login p₁ s₁ = login p₂ s₂ := by
  have e₁ : login p₁ s₁ = .error ⟨401, "Invalid credentials"⟩ := by
    simp [login, h₁]
  have e₂ : login p₂ s₂ = .error ⟨401, "Invalid credentials"⟩ := by
    simp [login, h₂, hpw]
  exact ⟨e₁, e₂, e₁.trans e₂.symm⟩

/-- **C3 witness**: concrete unknown-email run against the empty store
versus a wrong-password run against a store holding one user document
(which lacks a matching hash): both produce the same 401 error. -/
theorem login_errors_indistinguishable_witness :
    login ⟨"ada@x.com", "pw"⟩ Store.empty =
      login ⟨"bob@x.com", "pw"⟩ ⟨[("user", [[("email", .str "bob@x.com")]])], 1⟩ := by
  have h := login_errors_indistinguishable Store.empty ⟨"ada@x.com", "pw"⟩
    ⟨[("user", [[("email", .str "bob@x.com")]])], 1⟩ ⟨"bob@x.com", "pw"⟩
    [("email", .str "bob@x.com")] []
    (by decide)
    (by decide)
    (by simp [Doc.get])
  exact h.2.2

/-! ## Blog helper lemmas -/

theorem examplePost1_matches (now : Nat) :
    docMatches blogFilter (examplePost1 now) = true := rfl

theorem examplePost2_matches (now : Nat) :
    docMatches blogFilter (examplePost2 now) = true := rfl

theorem toBlogOut_examplePost1 (now : Nat) :
    toBlogOut (examplePost1 now) =
      some ⟨"Launching our pastel fintech platform", "launching-pastel-fintech",
            some "A soft, modern take on digital banking.",
            "We are excited to introduce a gentle, human fintech experience...",
            "Team", ["announcement", "fintech"], true, some now⟩ := rfl

theorem toBlogOut_examplePost2 (now : Nat) :
    toBlogOut (examplePost2 now) =
      some ⟨"How we price simply and fairly", "simple-fair-pricing",
            some "Transparent plans that scale with you.",
            "No hidden fees. Just clear tiers designed for growth...",
            "Team", ["pricing", "product"], true, some now⟩ := rfl

/-- When the published-filtered query is non-empty, `list_blogs` takes
the no-seed branch: it maps the query result and leaves the store as it
was. -/
theorem list_blogs_no_seed (now : Nat) (s : Store)
    (h : get_documents "blogpost" blogFilter none s ≠ []) :
    list_blogs now s = (mapBlogOuts (get_documents "blogpost" blogFilter none s), s) := by
  cases hp : get_documents "blogpost" blogFilter none s with
  | nil => exact absurd hp h
  | cons a l => simp [list_blogs, hp]

/-- **C4**: from a store whose blogpost collection is empty, the listing
returns exactly two posts, with the two fixed slugs, and a second
listing afterward returns the same two posts and changes nothing (the
lazy seed happens at most once). -/
theorem list_blogs_seed_and_idempotent (s : Store) (now now' : Nat)
    (h : getColl s "blogpost" = []) :
    (∃ b1 b2, (list_blogs now s).1 = some [b1, b2] ∧
      b1.slug = "launching-pastel-fintech" ∧ b2.slug = "simple-fair-pricing") ∧
    list_blogs now' (list_blogs now s).2 = ((list_blogs now s).1, (list_blogs now s).2) := by
  have hfind : get_documents "blogpost" blogFilter none s = [] := by
    simp [get_documents, h]
  have hcoll2 : getColl (create_document "blogpost" (examplePost2 now)
      (create_document "blogpost" (examplePost1 now) s).2).2 "blogpost"
      = [examplePost1 now, examplePost2 now] := by
    rw [getColl_create_self, getColl_create_self, h]
    rfl
  have hfind2 : get_documents "blogpost" blogFilter none
      (create_document "blogpost" (examplePost2 now)
        (create_document "blogpost" (examplePost1 now) s).2).2
      = [examplePost1 now, examplePost2 now] := by
    simp [get_documents, hcoll2, List.filter, examplePost1_matches, examplePost2_matches]
  have hrun : list_blogs now s =
      (mapBlogOuts [examplePost1 now, examplePost2 now],
       (create_document "blogpost" (examplePost2 now)
         (create_document "blogpost" (examplePost1 now) s).2).2) := by
    simp [list_blogs, hfind, hfind2]
  constructor
  · refine ⟨⟨"Launching our pastel fintech platform", "launching-pastel-fintech",
        some "A soft, modern take on digital banking.",
        "We are excited to introduce a gentle, human fintech experience...",
        "Team", ["announcement", "fintech"], true, some now⟩,
      ⟨"How we price simply and fairly", "simple-fair-pricing",
        some "Transparent plans that scale with you.",
        "No hidden fees. Just clear tiers designed for growth...",
        "Team", ["pricing", "product"], true, some now⟩, ?_, rfl, rfl⟩
    rw [hrun]
    simp [mapBlogOuts, toBlogOut_examplePost1, toBlogOut_examplePost2]
  · rw [hrun]
    rw [list_blogs_no_seed now' _ (by rw [hfind2]; simp)]
    rw [hfind2]

/-- **C4 witness**: starting from the empty store, the second listing
(at a later clock) returns exactly what the first returned and leaves
the store where the first left it. -/
theorem list_blogs_seed_and_idempotent_witness :
    list_blogs 4 (list_blogs 3 Store.empty).2 =
      ((list_blogs 3 Store.empty).1, (list_blogs 3 Store.empty).2) :=
  (list_blogs_seed_and_idempotent Store.empty 3 4 (by decide)).2

/-- A store whose blogpost collection holds exactly one unpublished
post. -/
def unpubStore : Store := ⟨[("blogpost", [[("published", .bool false)]])], 0⟩

/-- **C5 counterexample**: the claim "for every store state in which the
blogpost collection is non-empty, GET /api/blogs performs no insert and
leaves every collection of the store unchanged" is false: on a store
whose blogpost collection holds one unpublished post (so the collection
is non-empty but the published-filtered query is empty), the handler
does seed the two example posts, growing the collection to 3. -/
theorem list_blogs_seeds_despite_nonempty_collection :
    getColl unpubStore "blogpost" ≠ [] ∧
    (list_blogs 0 unpubStore).2 ≠ unpubStore ∧
    (getColl (list_blogs 0 unpubStore).2 "blogpost").length = 3 := by
  refine ⟨by decide, by decide, by decide⟩

/-- **C5 amended**: the seeding trigger is the emptiness of the
published-filtered query, not of the collection: for every store state
in which the query `find("blogpost", {published: true})` is non-empty,
GET /api/blogs performs no insert and leaves every collection of the
store unchanged. -/
theorem list_blogs_frame (now : Nat) (s : Store)
    (h : get_documents "blogpost" blogFilter none s ≠ []) :
    (list_blogs now s).2 = s := by
  rw [list_blogs_no_seed now s h]

/-- **C5 witness**: on a store holding one published post, the listing
leaves the store unchanged. -/
theorem list_blogs_frame_witness :
    (list_blogs 5 ⟨[("blogpost", [[("published", .bool true)]])], 3⟩).2 =
      ⟨[("blogpost", [[("published", .bool true)]])], 3⟩ :=
  list_blogs_frame 5 _ (by decide)

/-! ## Mapping lemmas for the blog output -/

/-- Every element of a successful `mapBlogOuts` run comes from some
stored document. -/
theorem mapBlogOuts_mem : ∀ (posts : List Doc) (l : List BlogOut) (b : BlogOut),
    mapBlogOuts posts = some l → b ∈ l → ∃ p ∈ posts, toBlogOut p = some b
  | [], l, b, h, hb => by
    simp [mapBlogOuts] at h
    subst h
    simp at hb
  | p :: rest, l, b, h, hb => by
    simp [mapBlogOuts, Option.bind_eq_some] at h
    obtain ⟨b0, hb0, l0, hl0, rfl⟩ := h
    rcases List.mem_cons.mp hb with rfl | hb'
    · exact ⟨p, List.mem_cons_self _ _, hb0⟩
    · obtain ⟨q, hq, hqb⟩ := mapBlogOuts_mem rest l0 b hl0 hb'
      exact ⟨q, List.mem_cons_of_mem _ hq, hqb⟩

/-- A successful `mapBlogOuts` run over a list ending in `d` ends in the
image of `d`. -/
theorem mapBlogOuts_append_singleton :
    ∀ (xs : List Doc) (d : Doc) (l : List BlogOut),
      mapBlogOuts (xs ++ [d]) = some l →
      ∃ l' b, mapBlogOuts xs = some l' ∧ toBlogOut d = some b ∧ l = l' ++ [b]
  | [], d, l, h => by
    simp [mapBlogOuts, Option.bind_eq_some] at h
    obtain ⟨b, hb, rfl⟩ := h
    exact ⟨[], b, rfl, hb, rfl⟩
  | x :: xs, d, l, h => by
    simp [mapBlogOuts, Option.bind_eq_some] at h
    obtain ⟨b0, hb0, l0, hl0, rfl⟩ := h
    obtain ⟨l', b, hl', hb, rfl⟩ := mapBlogOuts_append_singleton xs d l0 hl0
    refine ⟨b0 :: l', b, ?_, hb, rfl⟩
    simp [mapBlogOuts, Option.bind_eq_some, hb0, hl']

/-- A stored document passed through `toBlogOut` from a published-
filtered query has its `published` field stored as `true`. -/
theorem get_documents_published (s : Store) (p : Doc)
    (hp : p ∈ get_documents "blogpost" blogFilter none s) :
    p.get "published" = some (.bool true) := by
  simp [get_documents] at hp
  exact (docMatches_singleton "published" (.bool true) p).mp hp.2

/-- `toBlogOut` turns a stored `published: true` field into
`published = true` in the response. -/
theorem toBlogOut_published (p : Doc) (b : BlogOut)
    (hp : p.get "published" = some (.bool true))
    (h : toBlogOut p = some b) : b.published = true := by
  simp [toBlogOut, Option.bind_eq_some, hp, asPublished] at h
  obtain ⟨t, ht, sl, hsl, sm, hsm, ct, hct, au, hau, tg, htg, pa, hpa, rfl⟩ := h
  rfl

/-- Both branches of `list_blogs` return the mapping of the published-
filtered query against the final store. -/
theorem list_blogs_fst_eq (now : Nat) (s : Store) :
    (list_blogs now s).1 =
      mapBlogOuts (get_documents "blogpost" blogFilter none (list_blogs now s).2) := by
  cases hp : get_documents "blogpost" blogFilter none s with
  | nil => simp [list_blogs, hp]
  | cons a l => simp [list_blogs, hp]

/-- **C10**: every blog object the listing returns has
`published = true`, for every store state: the query (and the re-query
after seeding) filters on `{published: true}` and the mapping carries
the stored value through. -/
theorem list_blogs_only_published (now : Nat) (s : Store) (l : List BlogOut)
    (h : (list_blogs now s).1 = some l) :
    ∀ b ∈ l, b.published = true := by
  intro b hb
  rw [list_blogs_fst_eq] at h
  obtain ⟨p, hpmem, hpb⟩ := mapBlogOuts_mem _ l b h hb
  exact toBlogOut_published p b (get_documents_published _ p hpmem) hpb

/-- **C10 witness**: the listing of a store holding one published post
returns it with `published = true`. -/
theorem list_blogs_only_published_witness :
    BlogOut.published ⟨"t", "sl", none, "c", "a", [], true, none⟩ = true :=
  list_blogs_only_published 7
    ⟨[("blogpost", [[("title", .str "t"), ("slug", .str "sl"), ("content", .str "c"),
       ("author", .str "a"), ("published", .bool true)]])], 0⟩
    [⟨"t", "sl", none, "c", "a", [], true, none⟩] (by decide)
    ⟨"t", "sl", none, "c", "a", [], true, none⟩ (List.mem_singleton.mpr rfl)

/-! ## Defaulting round-trip lemmas (C6) -/

theorem mkBlogPostDoc_get_published (title slug : String) (summary : Option String)
    (content author : String) (tags : Option (List String))
    (published : Option Bool) (pat : Option Nat) :
    (mkBlogPostDoc title slug summary content author tags published pat).get "published" =
      some (.bool (published.getD true)) := by
  cases summary <;> rfl

theorem toBlogOut_mkBlogPostDoc (title slug : String) (summary : Option String)
    (content author : String) (tags : Option (List String))
    (published : Option Bool) (pat : Option Nat) :
    toBlogOut (mkBlogPostDoc title slug summary content author tags published pat) =
      some ⟨title, slug, summary, content, author, tags.getD [],
            published.getD true, pat⟩ := by
  cases summary <;> cases pat <;> rfl

theorem mkBlogPostDoc_matches (title slug : String) (summary : Option String)
    (content author : String) (tags : Option (List String))
    (published : Option Bool) (pat : Option Nat)
    (hpb : published.getD true = true) :
    docMatches blogFilter (mkBlogPostDoc title slug summary content author tags published pat) = true := by
  apply (docMatches_singleton "published" (.bool true) _).mpr
  rw [mkBlogPostDoc_get_published, hpb]

/-- Inserting a document that matches the published filter makes the
listing return the old matches followed by the image of the new
document. -/
theorem list_blogs_after_insert_matching (now : Nat) (s : Store) (d : Doc)
    (hm : docMatches blogFilter d = true) :
    (list_blogs now (create_document "blogpost" d s).2).1 =
      mapBlogOuts ((getColl s "blogpost").filter (docMatches blogFilter) ++ [d]) := by
  have hfind : get_documents "blogpost" blogFilter none (create_document "blogpost" d s).2 =
      (getColl s "blogpost").filter (docMatches blogFilter) ++ [d] := by
    simp [get_documents, getColl_create_self, List.filter_append, List.filter, hm]
  rw [list_blogs_no_seed now _ (by rw [hfind]; simp), hfind]

/-- **C6**: the defaulting rules round-trip through insertion and
listing: a BlogPost inserted with `tags` omitted comes back (as the
last listed object) with `tags = []`, and one inserted with `published`
omitted comes back with `published = true`. -/
theorem blogpost_defaults_roundtrip (now : Nat) (s : Store)
    (title slug : String) (summary : Option String) (content author : String)
    (pat : Option Nat) :
    (∀ (pb : Option Bool) (l : List BlogOut), pb.getD true = true →
      (list_blogs now (create_document "blogpost"
          (mkBlogPostDoc title slug summary content author none pb pat) s).2).1 = some l →
      l.getLast?.map BlogOut.tags = some []) ∧
    (∀ (tg : Option (List String)) (l : List BlogOut),
      (list_blogs now (create_document "blogpost"
          (mkBlogPostDoc title slug summary content author tg none pat) s).2).1 = some l →
      l.getLast?.map BlogOut.published = some true) := by
  constructor
  · intro pb l hpb h
    rw [list_blogs_after_insert_matching now s _
      (mkBlogPostDoc_matches title slug summary content author none pb pat hpb)] at h
    obtain ⟨l', b, _, hb, rfl⟩ := mapBlogOuts_append_singleton _ _ _ h
    rw [toBlogOut_mkBlogPostDoc] at hb
    obtain rfl := Option.some_injective _ hb
    simp [List.getLast?_concat]
  · intro tg l h
    rw [list_blogs_after_insert_matching now s _
      (mkBlogPostDoc_matches title slug summary content author tg none pat rfl)] at h
    obtain ⟨l', b, _, hb, rfl⟩ := mapBlogOuts_append_singleton _ _ _ h
    rw [toBlogOut_mkBlogPostDoc] at hb
    obtain rfl := Option.some_injective _ hb
    simp [List.getLast?_concat]

/-- **C6 witness**: inserting a post with both `tags` and `published`
omitted into the empty store and listing returns it last with
`tags = []`. -/
theorem blogpost_defaults_roundtrip_witness :
    ([(⟨"t", "sl", none, "c", "a", [], true, none⟩ : BlogOut)] : List BlogOut).getLast?.map
      BlogOut.tags = some [] :=
  (blogpost_defaults_roundtrip 0 Store.empty "t" "sl" none "c" "a" none).1 none
    [⟨"t", "sl", none, "c", "a", [], true, none⟩] (by decide) (by decide)

/-! ## Contact (C7, C8) -/

/-- **C7**: a validated contact request unconditionally inserts exactly
one ContactMessage document — appended to the contactmessage collection
with every other collection untouched, whatever the prior store — and
returns `ok = true`, the fixed acknowledgment string, and the non-empty
identifier of the inserted document. -/
theorem contact_always_inserts (p : ContactRequest) (s : Store) :
    (contact p s).1.ok = true ∧
    (contact p s).1.message = "Thanks for reaching out! We\x27ll get back to you soon." ∧
    (contact p s).1.id ≠ "" ∧
    getColl (contact p s).2 "contactmessage" = getColl s "contactmessage" ++ [contactDoc p] ∧
    (∀ c, c ≠ "contactmessage" → getColl (contact p s).2 c = getColl s c) :=
  ⟨rfl, rfl, create_document_id_ne_empty "contactmessage" (contactDoc p) s,
   getColl_create_self "contactmessage" (contactDoc p) s,
   fun c hc => getColl_create_ne "contactmessage" c (contactDoc p) s hc⟩

/-- **C7 witness**: a concrete contact submission in the empty store
leaves the user collection untouched. -/
theorem contact_always_inserts_witness :
    getColl (contact ⟨"A", "a@x.com", none, "hi"⟩ Store.empty).2 "user" =
      getColl Store.empty "user" :=
  (contact_always_inserts ⟨"A", "a@x.com", none, "hi"⟩ Store.empty).2.2.2.2 "user" (by decide)

/-- **C8**: any body the validation layer rejects is answered with the
structured 422 error and the store is unchanged — no persistence call
happens; in particular a body without `message`, or one whose `email`
fails the email-syntax check, is rejected. -/
theorem contact_validation_rejects (body : Doc) (s : Store) :
    (parseContactRequest body = none →
      contact_endpoint body s = (.error ⟨422, "validation error"⟩, s)) ∧
    (body.get "message" = none → parseContactRequest body = none) ∧
    (∀ e, body.get "email" = some (.str e) → isValidEmail e = false →
      parseContactRequest body = none) := by
  refine ⟨fun h => by simp [contact_endpoint, h], fun h => ?_, fun e he hv => ?_⟩
  · cases h1 : asStr (body.get "name") with
    | none => simp [parseContactRequest, h1]
    | some nm =>
      cases h2 : asStr (body.get "email") with
      | none => simp [parseContactRequest, h1, h2]
      | some em =>
        by_cases h3 : isValidEmail em
        · cases h4 : asOptStr (body.get "subject") with
          | none => simp [parseContactRequest, h1, h2, h3, h4]
          | some sub => simp [parseContactRequest, h1, h2, h3, h4, h, asStr]
        · simp [parseContactRequest, h1, h2, h3]
  · cases h1 : asStr (body.get "name") with
    | none => simp [parseContactRequest, h1]
    | some nm => simp [parseContactRequest, h1, he, asStr, hv]

/-- **C8 witness**: a body with a malformed email is rejected with the
422 error and the store (here already holding a contact message) is
unchanged; a body missing `message` fails validation. -/
theorem contact_validation_rejects_witness :
    contact_endpoint [("name", .str "A"), ("email", .str "nomail"), ("message", .str "hi")]
      ⟨[("contactmessage", [[("name", .str "B")]])], 7⟩ =
      (.error ⟨422, "validation error"⟩, ⟨[("contactmessage", [[("name", .str "B")]])], 7⟩) ∧
    parseContactRequest [("name", .str "A"), ("email", .str "a@x.com")] = none := by
  constructor
  · exact (contact_validation_rejects _ _).1
      ((contact_validation_rejects [("name", .str "A"), ("email", .str "nomail"),
        ("message", .str "hi")] Store.empty).2.2 "nomail" (by decide) (by decide))
  · exact (contact_validation_rejects [("name", .str "A"), ("email", .str "a@x.com")]
      Store.empty).2.1 (by decide)

/-! ## Diagnostic endpoint (C9) -/

/-- **C9**: `GET /test` never fails — `test_database` is a total
function of the adapter condition, takes no store and so performs no
state change — and for every condition it reports a human-readable
status string, with at most 10 collection names listed: an
uninitialized handle reports "Available but not initialized"; a handle
whose collection probe succeeds reports "Connected & Working" with the
first 10 names; a handle whose probe raises reports the caught
exception as "Connected but Error" text (truncated to 50 characters)
instead of propagating it. -/
theorem test_database_diagnostic (envUrl : Option String) (db : Option DbHandle) :
    (test_database envUrl db).collections.length ≤ 10 ∧
    (test_database envUrl db).backend = "✅ Running" ∧
    (db = none →
      (test_database envUrl db).database = "⚠️ Available but not initialized") ∧
    (∀ h cols, db = some h → h.collectionNames = .ok cols →
      (test_database envUrl db).database = "✅ Connected & Working" ∧
      (test_database envUrl db).collections = cols.take 10) ∧
    (∀ h e, db = some h → h.collectionNames = .error e →
      (test_database envUrl db).database = "⚠️ Connected but Error: " ++ strTake e 50 ∧
      (test_database envUrl db).collections = []) := by
  cases db with
  | none =>
    refine ⟨by simp [test_database], rfl, fun _ => rfl, ?_, ?_⟩
    · intro h cols hh
      exact Option.noConfusion hh
    · intro h e hh
      exact Option.noConfusion hh
  | some hdl =>
    cases hc : hdl.collectionNames with
    | ok cols =>
      refine ⟨?_, ?_, ?_, ?_, ?_⟩
      · simp [test_database, hc]
      · simp [test_database, hc]
      · intro hh
        exact Option.noConfusion hh
      · intro h cols' hh hcols
        obtain rfl := Option.some_injective _ hh
        rw [hc] at hcols
        obtain rfl := by injection hcols
        exact ⟨by simp [test_database, hc], by simp [test_database, hc]⟩
      · intro h e hh hcols
        obtain rfl := Option.some_injective _ hh
        rw [hc] at hcols
        exact Except.noConfusion hcols
    | error e =>
      refine ⟨?_, ?_, ?_, ?_, ?_⟩
      · simp [test_database, hc]
      · simp [test_database, hc]
      · intro hh
        exact Option.noConfusion hh
      · intro h cols' hh hcols
        obtain rfl := Option.some_injective _ hh
        rw [hc] at hcols
        exact Except.noConfusion hcols
      · intro h e' hh hcols
        obtain rfl := Option.some_injective _ hh
        rw [hc] at hcols
        obtain rfl := by injection hcols
        exact ⟨by simp [test_database, hc], by simp [test_database, hc]⟩

/-- **C9 witness**: concrete conditions: an uninitialized adapter
reports its status with no collection listed, and an erroring probe is
caught and truncated to 50 characters of status text. -/
theorem test_database_diagnostic_witness :
    (test_database none none).collections.length ≤ 10 ∧
    (test_database none none).database = "⚠️ Available but not initialized" ∧
    (test_database (some "u") (some ⟨some "db", .error "boom"⟩)).database =
      "⚠️ Connected but Error: " ++ strTake "boom" 50 :=
  ⟨(test_database_diagnostic none none).1,
   (test_database_diagnostic none none).2.2.1 rfl,
   ((test_database_diagnostic (some "u") (some ⟨some "db", .error "boom"⟩)).2.2.2.2
     ⟨some "db", .error "boom"⟩ "boom" rfl rfl).1⟩

end SaaS
